import Mathlib

/-!
Shallow embedding of the football-analyzer statistics core (`analysis.py`).

Modelling conventions:
* A pandas `DataFrame` of match rows becomes `List MatchRecord`; the `date`
  column is carried but unused by the aggregation logic.
* Goal counts are `Nat` (the data model declares them non-negative integers).
* Vectorised column sums (`df.loc[...].sum()`) become `List.map`/`List.sum`;
  boolean-mask counts (`(cond).sum()`) become `List.countP`; the row loop that
  classifies outcomes is the equivalent per-row `countP` over each of the three
  mutually exclusive outcome predicates (win `hg > ag`, loss `hg < ag`,
  draw: the remaining case, i.e. `hg = ag`).
* Python float thresholds (1.3, 2.8, ...) are modelled as exact rationals `ℚ`;
  all ratios are exact rational divisions.
* The Python `set` of team names iterates in an unspecified, hash-dependent
  order; we model it as the duplicate-free list of names in one fixed
  enumeration order.  Properties that depend on which of several matching
  candidates is found first are order-sensitive in the original as well.
* Free-text justification strings that interpolate float-formatted
  percentages are presentation text and are not modelled; the qualitative
  levels, the outcome lean and the risk note (whose fragments are exact
  string constants) are modelled faithfully.
-/

namespace FootballAnalyzer

/-- One row of the match DataFrame: columns `date`, `home_team`, `away_team`,
`home_goals`, `away_goals`. -/
structure MatchRecord where
  date : Nat
  home_team : String
  away_team : String
  home_goals : Nat
  away_goals : Nat
deriving DecidableEq

/-- `MatchStats` dataclass from `analysis.py`. -/
structure MatchStats where
  played : Nat
  wins : Nat
  draws : Nat
  losses : Nat
  form_points : Nat
  goals_for : Nat
  goals_against : Nat
  over_25_count : Nat
  btts_count : Nat
deriving DecidableEq

/-- `TeamAnalysis` dataclass from `analysis.py`. -/
structure TeamAnalysis where
  team_name : String
  total : MatchStats
  home : MatchStats
  away : MatchStats
  matches_df : List MatchRecord
deriving DecidableEq

/-- The goals scored by `team` in row `r`: `home_goals` when the team is the
home side, `away_goals` otherwise (the per-row `hg` of the classification
loop, and the row's contribution to the vectorised `goals_for` sum). -/
def goalsForIn (r : MatchRecord) (team : String) : Nat :=
  if r.home_team = team then r.home_goals else r.away_goals

/-- The goals conceded by `team` in row `r` (the per-row `ag`). -/
def goalsAgainstIn (r : MatchRecord) (team : String) : Nat :=
  if r.home_team = team then r.away_goals else r.home_goals

/-- `_calculate_stats(df, team)`: fold a match subset into a `MatchStats`.
Empty input short-circuits to the all-zero record.  `goals_for` is
(sum of `home_goals` over home rows) + (sum of `away_goals` over away rows),
which per row is exactly `goalsForIn`; symmetrically for `goals_against`.
`over_25_count` counts rows with `home_goals + away_goals > 2`; `btts_count`
counts rows with both `home_goals > 0` and `away_goals > 0`. -/
def _calculate_stats (df : List MatchRecord) (team : String) : MatchStats :=
  if df.isEmpty then ⟨0, 0, 0, 0, 0, 0, 0, 0, 0⟩
  else
    let wins := df.countP (fun r => goalsForIn r team > goalsAgainstIn r team)
    let losses := df.countP (fun r => goalsForIn r team < goalsAgainstIn r team)
    let draws := df.countP (fun r => goalsForIn r team = goalsAgainstIn r team)
    { played := df.length
      wins := wins
      draws := draws
      losses := losses
      form_points := wins * 3 + draws * 1 + losses * 0
      goals_for := (df.map (fun r => goalsForIn r team)).sum
      goals_against := (df.map (fun r => goalsAgainstIn r team)).sum
      over_25_count := df.countP (fun r => r.home_goals + r.away_goals > 2)
      btts_count := df.countP (fun r => r.home_goals > 0 ∧ r.away_goals > 0) }

/-- The Turkish-diacritic character map of `_normalize_team_name`
(`ç→c, ğ→g, ı→i, ö→o, ş→s, ü→u` and upper-case forms); other characters
are unchanged. -/
def tr_map (c : Char) : Char :=
  if c = 'ç' then 'c' else if c = 'ğ' then 'g' else if c = 'ı' then 'i'
  else if c = 'ö' then 'o' else if c = 'ş' then 's' else if c = 'ü' then 'u'
  else if c = 'Ç' then 'C' else if c = 'Ğ' then 'G' else if c = 'İ' then 'I'
  else if c = 'Ö' then 'O' else if c = 'Ş' then 'S' else if c = 'Ü' then 'U'
  else c

/-- `_normalize_team_name(name)`: replace each Turkish diacritic character by
its ASCII counterpart, then lower-case.  The sequential single-character
`str.replace` calls commute and equal one per-character map; lower-casing is
ASCII lower-casing (after replacement the alphabet in scope is ASCII). -/
def _normalize_team_name (name : String) : String :=
  String.mk (name.data.map (fun c => (tr_map c).toLower))

/-- `set(df["home_team"].unique()) | set(df["away_team"].unique())`: the
distinct team names of the dataset, in one fixed enumeration order (the
Python set iterates in an unspecified hash order). -/
def allTeams (df : List MatchRecord) : List String :=
  (df.map (fun r => r.home_team) ++ df.map (fun r => r.away_team)).dedup

/-- `_resolve_team_name(df, team)`: one pass over the candidate set returning
the first candidate `t` with `t == team or normalize(t) == normalize(team)`. -/
def _resolve_team_name (df : List MatchRecord) (team : String) : Option String :=
  (allTeams df).find?
    (fun t => t == team || _normalize_team_name t == _normalize_team_name team)

/-- The row mask `(df["home_team"] == resolved) | (df["away_team"] == resolved)`. -/
def team_mask_filter (df : List MatchRecord) (resolved : String) : List MatchRecord :=
  df.filter (fun r => r.home_team == resolved || r.away_team == resolved)

/-- `analyze_team_from_df(df, team, last_n, exact_match)`: resolve the name
(or take it verbatim in exact mode), keep the first `last_n` masked rows, and
build the three stats folds; any of the three emptiness/resolution failures
yields `none`. -/
def analyze_team_from_df (df : List MatchRecord) (team : String)
    (last_n : Nat) (exact_match : Bool) : Option TeamAnalysis :=
  if df.isEmpty then none
  else
    match (if exact_match then some team else _resolve_team_name df team) with
    | none => none
    | some resolved =>
      let team_df := (team_mask_filter df resolved).take last_n
      if team_df.isEmpty then none
      else
        some { team_name := resolved
               total := _calculate_stats team_df resolved
               home := _calculate_stats
                 (team_df.filter (fun r => r.home_team == resolved)) resolved
               away := _calculate_stats
                 (team_df.filter (fun r => r.away_team == resolved)) resolved
               matches_df := team_df }

/-- `generate_match_comment(team1_stats, team2_stats)`: the four independent
tendency rules, evaluated in fixed order over exact rational rates, joined
with ". " and a trailing period. -/
def generate_match_comment (t1 t2 : MatchStats) : String :=
  if t1.played = 0 ∨ t2.played = 0 then "Yeterli veri yok."
  else
    let avg1 : ℚ := (t1.goals_for : ℚ) / (t1.played : ℚ)
    let avg2 : ℚ := (t2.goals_for : ℚ) / (t2.played : ℚ)
    let btts1 : ℚ := (t1.btts_count : ℚ) / (t1.played : ℚ) * 100
    let btts2 : ℚ := (t2.btts_count : ℚ) / (t2.played : ℚ) * 100
    let diff : Nat := ((t1.form_points : Int) - (t2.form_points : Int)).natAbs
    let over1 : ℚ := (t1.over_25_count : ℚ) / (t1.played : ℚ) * 100
    let over2 : ℚ := (t2.over_25_count : ℚ) / (t2.played : ℚ) * 100
    let comments : List String :=
      (if avg1 ≥ 1.5 ∧ avg2 ≥ 1.5 then ["Gollü maç eğilimi"] else [])
      ++ (if btts1 ≥ 60 ∧ btts2 ≥ 60 then ["İki takım da gol bulabilir"] else [])
      ++ (if diff ≥ 6 then ["Formda takım avantajlı"] else [])
      ++ (if over1 ≥ 50 ∧ over2 ≥ 50 then ["Over eğilimi"] else [])
    if comments.isEmpty then "Belirgin bir eğilim görünmüyor."
    else String.intercalate ". " comments ++ "."

/-- The claim-relevant fields of the dict returned by `predict_summary`:
the qualitative level of the `btts`, `over25` and `gollu_mac` markets, the
`sonuc` of the `eğilim_1x2` market, and `risk_notu` (`None` becomes
`Option.none`).  The `gerekce` justification strings interpolate
float-formatted percentages and are presentation-only; they are not
modelled. -/
structure PredictSummary where
  btts_level : String
  over25_level : String
  gollu_mac_level : String
  egilim_1x2_sonuc : String
  risk_notu : Option String
deriving DecidableEq

/-- `predict_summary(team1_stats, team2_stats, team1_name, team2_name)`:
heuristic market levels over exact rational rates (float thresholds 1.3, 2.8,
2.2 are the exact rationals they denote), the 1X2 lean on the integer form
point difference, and the two independently evaluated risk flags joined with
". ". -/
def predict_summary (t1 t2 : MatchStats) (team1_name team2_name : String) :
    PredictSummary :=
  if t1.played = 0 ∨ t2.played = 0 then
    ⟨"-", "-", "-", "-", some "Veri yetersiz."⟩
  else
    let goals_avg1 : ℚ := (t1.goals_for : ℚ) / (t1.played : ℚ)
    let goals_avg2 : ℚ := (t2.goals_for : ℚ) / (t2.played : ℚ)
    let goals_against_avg1 : ℚ := (t1.goals_against : ℚ) / (t1.played : ℚ)
    let goals_against_avg2 : ℚ := (t2.goals_against : ℚ) / (t2.played : ℚ)
    let btts1 : ℚ := (t1.btts_count : ℚ) / (t1.played : ℚ) * 100
    let btts2 : ℚ := (t2.btts_count : ℚ) / (t2.played : ℚ) * 100
    let over1 : ℚ := (t1.over_25_count : ℚ) / (t1.played : ℚ) * 100
    let over2 : ℚ := (t2.over_25_count : ℚ) / (t2.played : ℚ) * 100
    let over_avg : ℚ := (over1 + over2) / 2
    let form_diff : Int := (t1.form_points : Int) - (t2.form_points : Int)
    let btts_level : String :=
      if btts1 ≥ 60 ∧ btts2 ≥ 60 then "Yüksek"
      else if (btts1 + btts2) / 2 ≥ 45 then "Orta" else "Düşük"
    let over_level : String :=
      if over_avg ≥ 55 then "Yüksek"
      else if over_avg ≥ 40 then "Orta" else "Düşük"
    let toplam_gol_avg : ℚ := goals_avg1 + goals_avg2
    let gollu_level : String :=
      if toplam_gol_avg ≥ 2.8 then "Yüksek"
      else if toplam_gol_avg ≥ 2.2 then "Orta" else "Düşük"
    let egilim_sonuc : String :=
      if form_diff ≥ 6 then team1_name
      else if form_diff ≤ -6 then team2_name else "Dengeli"
    let riskler : List String :=
      (if goals_against_avg1 ≥ 1.3 ∧ goals_against_avg2 ≥ 1.3 then
        ["Savunmalar kırılgan"] else [])
      ++ (if t1.played < 5 ∨ t2.played < 5 then
        ["Örneklem küçük, veri sınırlı"] else [])
    let risk_notu : Option String :=
      if riskler.isEmpty then none else some (String.intercalate ". " riskler)
    ⟨btts_level, over_level, gollu_level, egilim_sonuc, risk_notu⟩

/-- Field-wise sum of two `MatchStats`, used to state home/away additivity. -/
def statsAdd (a b : MatchStats) : MatchStats :=
  ⟨a.played + b.played, a.wins + b.wins, a.draws + b.draws,
   a.losses + b.losses, a.form_points + b.form_points,
   a.goals_for + b.goals_for, a.goals_against + b.goals_against,
   a.over_25_count + b.over_25_count, a.btts_count + b.btts_count⟩

/-- The spec's three-match example dataset for Team A, newest first:
2-1 (A home), 0-0 (A away), 1-1 (A home). -/
def exampleMatches : List MatchRecord :=
  [⟨3, "Team A", "Team B", 2, 1⟩,
   ⟨2, "Team C", "Team A", 0, 0⟩,
   ⟨1, "Team A", "Team D", 1, 1⟩]

/-! ## Helper lemmas -/

/-- `_calculate_stats` with the empty-input branch folded away: on `[]` every
field of the general formula is `0`, so the two branches agree. -/
lemma calc_stats_eq (df : List MatchRecord) (team : String) :
    _calculate_stats df team =
      { played := df.length
        wins := df.countP (fun r => goalsForIn r team > goalsAgainstIn r team)
        draws := df.countP (fun r => goalsForIn r team = goalsAgainstIn r team)
        losses := df.countP (fun r => goalsForIn r team < goalsAgainstIn r team)
        form_points :=
          df.countP (fun r => goalsForIn r team > goalsAgainstIn r team) * 3
            + df.countP (fun r => goalsForIn r team = goalsAgainstIn r team) * 1
            + df.countP (fun r => goalsForIn r team < goalsAgainstIn r team) * 0
        goals_for := (df.map (fun r => goalsForIn r team)).sum
        goals_against := (df.map (fun r => goalsAgainstIn r team)).sum
        over_25_count := df.countP (fun r => r.home_goals + r.away_goals > 2)
        btts_count := df.countP (fun r => r.home_goals > 0 ∧ r.away_goals > 0) } := by
  cases df with
  | nil => rfl
  | cons a l => rfl

/-- Each row is classified into exactly one of win/draw/loss, so the three
outcome counts partition the row count. -/
lemma countP_outcome_trichotomy (team : String) (l : List MatchRecord) :
    l.countP (fun r => goalsForIn r team > goalsAgainstIn r team)
      + l.countP (fun r => goalsForIn r team = goalsAgainstIn r team)
      + l.countP (fun r => goalsForIn r team < goalsAgainstIn r team)
      = l.length := by
  induction l with
  | nil => rfl
  | cons a l ih =>
    simp only [List.countP_cons, List.length_cons, decide_eq_true_eq]
    split_ifs <;> omega

end FootballAnalyzer

namespace FootballAnalyzer

/-! ## Claim theorems -/

/-- C1 counterexample: on the spec's own example dataset the aggregator
computes `form_points = 1 * 3 + 2 * 1 = 5` (one win, two draws), so the
claimed output record with `form_points = 3` is not the computed one. -/
theorem calc_stats_example_cex :
    _calculate_stats exampleMatches "Team A" ≠ ⟨3, 1, 2, 0, 3, 3, 2, 1, 2⟩
    ∧ (_calculate_stats exampleMatches "Team A").form_points = 5 :=
  ⟨by decide, by decide⟩

/-- C1 (amended): for every non-empty match subset and team name the
aggregator classifies each match from the team's perspective (goals for
greater than goals against is a win, less is a loss, equal is a draw), sums
goals accordingly, and scores form as `wins * 3 + draws`; on the spec's
three-match example for Team A it returns played = 3, wins = 1, draws = 2,
losses = 0, form_points = 5, goals_for = 3, goals_against = 2,
over_threshold_count = 1, both_scored_count = 2. -/
theorem calc_stats_outcome_and_example (df : List MatchRecord) (team : String)
    (h : df ≠ []) :
    ((_calculate_stats df team).wins
        = df.countP (fun r => goalsForIn r team > goalsAgainstIn r team)
      ∧ (_calculate_stats df team).draws
        = df.countP (fun r => goalsForIn r team = goalsAgainstIn r team)
      ∧ (_calculate_stats df team).losses
        = df.countP (fun r => goalsForIn r team < goalsAgainstIn r team)
      ∧ (_calculate_stats df team).form_points
        = (_calculate_stats df team).wins * 3 + (_calculate_stats df team).draws
      ∧ (_calculate_stats df team).goals_for
        = (df.map (fun r => goalsForIn r team)).sum
      ∧ (_calculate_stats df team).goals_against
        = (df.map (fun r => goalsAgainstIn r team)).sum)
    ∧ _calculate_stats exampleMatches "Team A" = ⟨3, 1, 2, 0, 5, 3, 2, 1, 2⟩ := by
  refine ⟨?_, by decide⟩
  rw [calc_stats_eq]
  dsimp only
  exact ⟨rfl, rfl, rfl, by omega, rfl, rfl⟩

/-- C1 witness: the amended theorem instantiated on the example dataset. -/
theorem calc_stats_outcome_and_example_witness :
    exampleMatches ≠ ([] : List MatchRecord)
    ∧ _calculate_stats exampleMatches "Team A" = ⟨3, 1, 2, 0, 5, 3, 2, 1, 2⟩ :=
  ⟨by decide,
   (calc_stats_outcome_and_example exampleMatches "Team A" (by decide)).2⟩

/-- C2: for every match subset and team name, `wins + draws + losses = played`
and `played` equals the number of matches in the subset; the empty subset
yields the all-zero record. -/
theorem calc_stats_partition_invariant (df : List MatchRecord) (team : String) :
    (_calculate_stats df team).wins + (_calculate_stats df team).draws
        + (_calculate_stats df team).losses = (_calculate_stats df team).played
    ∧ (_calculate_stats df team).played = df.length
    ∧ _calculate_stats [] team = ⟨0, 0, 0, 0, 0, 0, 0, 0, 0⟩ := by
  refine ⟨?_, ?_, rfl⟩ <;> rw [calc_stats_eq]
  exact countP_outcome_trichotomy team df

/-- C4: a match is an over-threshold hit exactly when its total goals are at
least 3 (the code's strict `> 2`); in particular a 1-1 match is never counted
and a 2-1 match always is. -/
theorem over_threshold_iff :
    (∀ (df : List MatchRecord) (team : String),
        (_calculate_stats df team).over_25_count
          = df.countP (fun r => 3 ≤ r.home_goals + r.away_goals))
    ∧ (_calculate_stats [⟨1, "H", "A", 1, 1⟩] "H").over_25_count = 0
    ∧ (_calculate_stats [⟨1, "H", "A", 2, 1⟩] "H").over_25_count = 1 := by
  refine ⟨fun df team => ?_, by decide, by decide⟩
  rw [calc_stats_eq]
  exact List.countP_congr fun r _ => by
    simp only [decide_eq_true_eq]
    omega

/-- Counting over the two folds of a list whose rows each satisfy exactly one
of `q1`, `q2` is additive. -/
lemma countP_filter_partition {α : Type} (p q1 q2 : α → Bool) :
    ∀ l : List α,
      (∀ r ∈ l, (q1 r = true ∧ q2 r = false) ∨ (q1 r = false ∧ q2 r = true)) →
      (l.filter q1).countP p + (l.filter q2).countP p = l.countP p := by
  intro l
  induction l with
  | nil => intro _; rfl
  | cons a l ih =>
    intro h
    have ih' := ih fun r hr => h r (List.mem_cons_of_mem a hr)
    rcases h a (List.mem_cons_self a l) with ⟨h1, h2⟩ | ⟨h1, h2⟩
    · have h2' : ¬ q2 a = true := by simp [h2]
      rw [List.filter_cons_of_pos h1, List.filter_cons_of_neg h2']
      simp only [List.countP_cons]
      omega
    · have h1' : ¬ q1 a = true := by simp [h1]
      rw [List.filter_cons_of_neg h1', List.filter_cons_of_pos h2]
      simp only [List.countP_cons]
      omega

/-- Summing a mapped value over the two folds is additive as well. -/
lemma sum_map_filter_partition {α : Type} (f : α → Nat) (q1 q2 : α → Bool) :
    ∀ l : List α,
      (∀ r ∈ l, (q1 r = true ∧ q2 r = false) ∨ (q1 r = false ∧ q2 r = true)) →
      ((l.filter q1).map f).sum + ((l.filter q2).map f).sum = (l.map f).sum := by
  intro l
  induction l with
  | nil => intro _; rfl
  | cons a l ih =>
    intro h
    have ih' := ih fun r hr => h r (List.mem_cons_of_mem a hr)
    rcases h a (List.mem_cons_self a l) with ⟨h1, h2⟩ | ⟨h1, h2⟩
    · have h2' : ¬ q2 a = true := by simp [h2]
      rw [List.filter_cons_of_pos h1, List.filter_cons_of_neg h2']
      simp only [List.map_cons, List.sum_cons]
      omega
    · have h1' : ¬ q1 a = true := by simp [h1]
      rw [List.filter_cons_of_neg h1', List.filter_cons_of_pos h2]
      simp only [List.map_cons, List.sum_cons]
      omega

/-- The lengths of the two folds are additive. -/
lemma length_filter_partition {α : Type} (q1 q2 : α → Bool) :
    ∀ l : List α,
      (∀ r ∈ l, (q1 r = true ∧ q2 r = false) ∨ (q1 r = false ∧ q2 r = true)) →
      (l.filter q1).length + (l.filter q2).length = l.length := by
  intro l
  induction l with
  | nil => intro _; rfl
  | cons a l ih =>
    intro h
    have ih' := ih fun r hr => h r (List.mem_cons_of_mem a hr)
    rcases h a (List.mem_cons_self a l) with ⟨h1, h2⟩ | ⟨h1, h2⟩
    · have h2' : ¬ q2 a = true := by simp [h2]
      rw [List.filter_cons_of_pos h1, List.filter_cons_of_neg h2']
      simp only [List.length_cons]
      omega
    · have h1' : ¬ q1 a = true := by simp [h1]
      rw [List.filter_cons_of_neg h1', List.filter_cons_of_pos h2]
      simp only [List.length_cons]
      omega

/-- Over a subset in which every row involves `team` and no row lists the same
club on both sides, the home fold and the away fold of `_calculate_stats` sum
field-by-field to the total fold. -/
lemma calc_stats_home_away_add (l : List MatchRecord) (team : String)
    (hmask : ∀ r ∈ l, r.home_team = team ∨ r.away_team = team)
    (hdist : ∀ r ∈ l, r.home_team ≠ r.away_team) :
    statsAdd
        (_calculate_stats (l.filter (fun r => r.home_team == team)) team)
        (_calculate_stats (l.filter (fun r => r.away_team == team)) team)
      = _calculate_stats l team := by
  have hpart : ∀ r ∈ l,
      ((fun r : MatchRecord => r.home_team == team) r = true
          ∧ (fun r : MatchRecord => r.away_team == team) r = false)
      ∨ ((fun r : MatchRecord => r.home_team == team) r = false
          ∧ (fun r : MatchRecord => r.away_team == team) r = true) := by
    intro r hr
    rcases hmask r hr with h | h
    · have haway : r.away_team ≠ team := fun hc => hdist r hr (by rw [h, hc])
      exact Or.inl ⟨beq_iff_eq.mpr h, beq_eq_false_iff_ne.mpr haway⟩
    · have hhome : r.home_team ≠ team := fun hc => hdist r hr (by rw [hc, h])
      exact Or.inr ⟨beq_eq_false_iff_ne.mpr hhome, beq_iff_eq.mpr h⟩
  have hw := countP_filter_partition
    (fun r => goalsForIn r team > goalsAgainstIn r team) _ _ l hpart
  have hd := countP_filter_partition
    (fun r => goalsForIn r team = goalsAgainstIn r team) _ _ l hpart
  have hl := countP_filter_partition
    (fun r => goalsForIn r team < goalsAgainstIn r team) _ _ l hpart
  have hov := countP_filter_partition
    (fun r => r.home_goals + r.away_goals > 2) _ _ l hpart
  have hbt := countP_filter_partition
    (fun r => r.home_goals > 0 ∧ r.away_goals > 0) _ _ l hpart
  have hgf := sum_map_filter_partition (fun r => goalsForIn r team) _ _ l hpart
  have hga := sum_map_filter_partition (fun r => goalsAgainstIn r team) _ _ l hpart
  have hlen := length_filter_partition _ _ l hpart
  rw [calc_stats_eq, calc_stats_eq, calc_stats_eq]
  simp only [statsAdd, MatchStats.mk.injEq]
  refine ⟨hlen, hw, hd, hl, by omega, hgf, hga, hov, hbt⟩

/-- C3 counterexample: a degenerate dataset whose single row lists the same
club as both home and away side.  The analysis succeeds, the row lands in both
the home fold and the away fold (the away fold filters on the away-team
column, not on the complement of the home fold), and the two folds do not sum
to the total: played is 1 + 1 on the parts but 1 in total. -/
theorem home_away_additivity_cex :
    analyze_team_from_df [⟨1, "A", "A", 1, 0⟩] "A" 10 false
      = some ⟨"A", ⟨1, 1, 0, 0, 3, 1, 0, 0, 0⟩, ⟨1, 1, 0, 0, 3, 1, 0, 0, 0⟩,
          ⟨1, 1, 0, 0, 3, 1, 0, 0, 0⟩, [⟨1, "A", "A", 1, 0⟩]⟩
    ∧ statsAdd ⟨1, 1, 0, 0, 3, 1, 0, 0, 0⟩ ⟨1, 1, 0, 0, 3, 1, 0, 0, 0⟩
        ≠ ⟨1, 1, 0, 0, 3, 1, 0, 0, 0⟩ :=
  ⟨by decide, by decide⟩

/-- C3 (amended): for every analysis result whose filtered subset never lists
the same club as both home and away side, the home and away `MatchStats` sum
field-by-field to the total `MatchStats`. -/
theorem home_away_additivity_amended (df : List MatchRecord) (team : String)
    (n : Nat) (e : Bool) (a : TeamAnalysis)
    (ha : analyze_team_from_df df team n e = some a)
    (hdist : ∀ r ∈ a.matches_df, r.home_team ≠ r.away_team) :
    statsAdd a.home a.away = a.total := by
  simp only [analyze_team_from_df] at ha
  split at ha
  · exact absurd ha (by simp)
  · split at ha
    · exact absurd ha (by simp)
    · rename_i resolved heq
      split at ha
      · exact absurd ha (by simp)
      · rename_i hne
        obtain rfl := Option.some.inj ha
        refine calc_stats_home_away_add _ resolved ?_ hdist
        intro r hr
        have hr' : r ∈ team_mask_filter df resolved :=
          List.take_subset n _ hr
        have hp := List.of_mem_filter hr'
        simp only [Bool.or_eq_true, beq_iff_eq] at hp
        exact hp

/-- C3 witness: the amended theorem instantiated on a one-match dataset. -/
theorem home_away_additivity_witness :
    statsAdd ⟨1, 1, 0, 0, 3, 2, 1, 1, 1⟩ ⟨0, 0, 0, 0, 0, 0, 0, 0, 0⟩
      = ⟨1, 1, 0, 0, 3, 2, 1, 1, 1⟩ :=
  home_away_additivity_amended [⟨1, "A", "B", 2, 1⟩] "A" 10 false
    ⟨"A", ⟨1, 1, 0, 0, 3, 2, 1, 1, 1⟩, ⟨1, 1, 0, 0, 3, 2, 1, 1, 1⟩,
      ⟨0, 0, 0, 0, 0, 0, 0, 0, 0⟩, [⟨1, "A", "B", 2, 1⟩]⟩
    (by decide) (by decide)

/-- A list containing an element satisfying `p` has a `find?` hit, and the
hit satisfies `p`. -/
lemma find?_of_mem_pred {α : Type} (p : α → Bool) (l : List α) (x : α)
    (hx : x ∈ l) (hpx : p x = true) :
    ∃ t, l.find? p = some t ∧ p t = true := by
  induction l with
  | nil => cases hx
  | cons a l ih =>
    by_cases hpa : p a = true
    · exact ⟨a, List.find?_cons_of_pos l hpa, hpa⟩
    · rcases List.mem_cons.mp hx with rfl | hx'
      · exact absurd hpx hpa
      · obtain ⟨t, hf, hp⟩ := ih hx'
        exact ⟨t, (List.find?_cons_of_neg l hpa).trans hf, hp⟩

/-- Two team names on the two sides of the resolver's counterexample dataset:
the dataset stores both the plain-ASCII and the Turkish-diacritic spelling. -/
def cexNameMatches : List MatchRecord :=
  [⟨1, "istanbul", "X", 0, 0⟩, ⟨2, "İstanbul", "Y", 0, 0⟩]

/-- C5 counterexample: the dataset contains a candidate exactly equal to the
query "İstanbul", yet the resolver returns the different candidate
"istanbul", because its single pass tests exact OR normalized equality per
candidate and meets the normalized-only match first. -/
theorem resolve_exact_not_preferred_cex :
    _resolve_team_name cexNameMatches "İstanbul" = some "istanbul"
    ∧ "İstanbul" ∈ allTeams cexNameMatches
    ∧ "istanbul" ≠ "İstanbul" :=
  ⟨by decide, by decide, by decide⟩

/-- C5 (amended): the resolver makes a single pass over the unordered
candidate set, accepting the first candidate that is exactly equal to the
query OR has the same diacritic-normalized lower-cased form; exact equality
has no priority over normalized equality.  Consequently any returned
candidate agrees with the query up to normalization, and whenever the query
itself occurs among the candidates some such candidate is returned — but not
necessarily the exactly-equal one. -/
theorem resolve_single_pass_amended (df : List MatchRecord) (team : String) :
    (∀ t, _resolve_team_name df team = some t →
        t = team ∨ _normalize_team_name t = _normalize_team_name team)
    ∧ (team ∈ allTeams df →
        ∃ t, _resolve_team_name df team = some t
          ∧ _normalize_team_name t = _normalize_team_name team) := by
  constructor
  · intro t ht
    have hp := List.find?_some ht
    simp only [Bool.or_eq_true, beq_iff_eq] at hp
    exact hp
  · intro hmem
    obtain ⟨t, hfind, hp⟩ := find?_of_mem_pred
      (fun t => t == team || _normalize_team_name t == _normalize_team_name team)
      (allTeams df) team hmem (by simp)
    refine ⟨t, hfind, ?_⟩
    simp only [Bool.or_eq_true, beq_iff_eq] at hp
    rcases hp with rfl | h
    · rfl
    · exact h

/-- C5 witness: the amended theorem instantiated on a one-match dataset in
which the query is stored verbatim. -/
theorem resolve_single_pass_witness :
    "A" ∈ allTeams [⟨1, "A", "B", 0, 0⟩]
    ∧ ∃ t, _resolve_team_name [⟨1, "A", "B", 0, 0⟩] "A" = some t
        ∧ _normalize_team_name t = _normalize_team_name "A" :=
  ⟨by decide, (resolve_single_pass_amended [⟨1, "A", "B", 0, 0⟩] "A").2 (by decide)⟩

/-- C6: with both played counts positive, the outcome-lean market leans to
team 1 whenever its form-point lead is at least 6, leans to team 2 whenever
the deficit is at least 6, and reads "Dengeli" (balanced) strictly between;
the boundary of exactly 6 assigns the lead. -/
theorem outcome_lean_thresholds (t1 t2 : MatchStats) (n1 n2 : String)
    (h1 : 0 < t1.played) (h2 : 0 < t2.played) :
    (6 ≤ (t1.form_points : Int) - (t2.form_points : Int) →
        (predict_summary t1 t2 n1 n2).egilim_1x2_sonuc = n1)
    ∧ ((t1.form_points : Int) - (t2.form_points : Int) ≤ -6 →
        (predict_summary t1 t2 n1 n2).egilim_1x2_sonuc = n2)
    ∧ (-6 < (t1.form_points : Int) - (t2.form_points : Int) →
        (t1.form_points : Int) - (t2.form_points : Int) < 6 →
        (predict_summary t1 t2 n1 n2).egilim_1x2_sonuc = "Dengeli") := by
  have hne : ¬ (t1.played = 0 ∨ t2.played = 0) := by omega
  simp only [predict_summary, if_neg hne]
  refine ⟨fun h => ?_, fun h => ?_, fun ha hb => ?_⟩ <;>
    split_ifs with hA hB <;> first | rfl | (exfalso; omega)

/-- C6 witness: a lead of exactly 6 form points (9 vs 3) over 6-match samples
assigns the lean to team 1. -/
theorem outcome_lean_thresholds_witness :
    0 < (⟨6, 3, 0, 3, 9, 0, 0, 0, 0⟩ : MatchStats).played
    ∧ 0 < (⟨6, 1, 0, 5, 3, 0, 0, 0, 0⟩ : MatchStats).played
    ∧ (predict_summary ⟨6, 3, 0, 3, 9, 0, 0, 0, 0⟩ ⟨6, 1, 0, 5, 3, 0, 0, 0, 0⟩
        "Team 1" "Team 2").egilim_1x2_sonuc = "Team 1" :=
  ⟨by decide, by decide,
   (outcome_lean_thresholds ⟨6, 3, 0, 3, 9, 0, 0, 0, 0⟩ ⟨6, 1, 0, 5, 3, 0, 0, 0, 0⟩
      "Team 1" "Team 2" (by decide) (by decide)).1 (by decide)⟩

/-- C7: with both played counts positive, the risk note carries the
fragile-defenses flag exactly when both teams concede at least 1.3 goals per
match, carries the small-sample flag exactly when either team has played
fewer than 5 matches, joins the two flags with ". " when both fire, and is
`none` (a distinguishable absent state, not an empty string) when neither
fires. -/
theorem risk_note_flags (t1 t2 : MatchStats) (n1 n2 : String)
    (h1 : 0 < t1.played) (h2 : 0 < t2.played) :
    ((t1.goals_against : ℚ) / (t1.played : ℚ) ≥ 1.3 ∧
        (t2.goals_against : ℚ) / (t2.played : ℚ) ≥ 1.3 →
      (t1.played < 5 ∨ t2.played < 5) →
      (predict_summary t1 t2 n1 n2).risk_notu
        = some "Savunmalar kırılgan. Örneklem küçük, veri sınırlı")
    ∧ ((t1.goals_against : ℚ) / (t1.played : ℚ) ≥ 1.3 ∧
        (t2.goals_against : ℚ) / (t2.played : ℚ) ≥ 1.3 →
      ¬ (t1.played < 5 ∨ t2.played < 5) →
      (predict_summary t1 t2 n1 n2).risk_notu = some "Savunmalar kırılgan")
    ∧ (¬ ((t1.goals_against : ℚ) / (t1.played : ℚ) ≥ 1.3 ∧
        (t2.goals_against : ℚ) / (t2.played : ℚ) ≥ 1.3) →
      (t1.played < 5 ∨ t2.played < 5) →
      (predict_summary t1 t2 n1 n2).risk_notu
        = some "Örneklem küçük, veri sınırlı")
    ∧ ((predict_summary t1 t2 n1 n2).risk_notu = none ↔
      ¬ ((t1.goals_against : ℚ) / (t1.played : ℚ) ≥ 1.3 ∧
          (t2.goals_against : ℚ) / (t2.played : ℚ) ≥ 1.3)
        ∧ ¬ (t1.played < 5 ∨ t2.played < 5)) := by
  have hne : ¬ (t1.played = 0 ∨ t2.played = 0) := by omega
  simp only [predict_summary, if_neg hne]
  refine ⟨fun ha hb => ?_, fun ha hb => ?_, fun ha hb => ?_, ?_⟩
  · rw [if_pos ha, if_pos hb]
    decide
  · rw [if_pos ha, if_neg hb]
    decide
  · rw [if_neg ha, if_pos hb]
    decide
  · by_cases hf : (t1.goals_against : ℚ) / (t1.played : ℚ) ≥ 1.3 ∧
        (t2.goals_against : ℚ) / (t2.played : ℚ) ≥ 1.3
    · rw [if_pos hf]
      by_cases hs : t1.played < 5 ∨ t2.played < 5
      · rw [if_pos hs]
        exact ⟨fun hcon => absurd hcon (by decide), fun hcon => absurd hf hcon.1⟩
      · rw [if_neg hs]
        exact ⟨fun hcon => absurd hcon (by decide), fun hcon => absurd hf hcon.1⟩
    · rw [if_neg hf]
      by_cases hs : t1.played < 5 ∨ t2.played < 5
      · rw [if_pos hs]
        exact ⟨fun hcon => absurd hcon (by decide), fun hcon => absurd hs hcon.2⟩
      · rw [if_neg hs]
        exact ⟨fun _ => ⟨hf, hs⟩, fun _ => by decide⟩

/-- C7 witness: a clean-sheet team with only 4 matches played triggers the
small-sample flag alone. -/
theorem risk_note_flags_witness :
    0 < (⟨4, 4, 0, 0, 12, 8, 0, 2, 0⟩ : MatchStats).played
    ∧ (predict_summary ⟨4, 4, 0, 0, 12, 8, 0, 2, 0⟩ ⟨4, 4, 0, 0, 12, 8, 0, 2, 0⟩
        "T1" "T2").risk_notu = some "Örneklem küçük, veri sınırlı" :=
  ⟨by decide,
   (risk_note_flags ⟨4, 4, 0, 0, 12, 8, 0, 2, 0⟩ ⟨4, 4, 0, 0, 12, 8, 0, 2, 0⟩
      "T1" "T2" (by decide) (by decide)).2.2.1
     (by norm_num) (by decide)⟩

/-- C8: whenever either team's played count is 0, the comment generator
returns the canned insufficient-data message and the prediction summarizer
returns the placeholder summary in which every market carries "-". -/
theorem insufficient_data_short_circuit (t1 t2 : MatchStats) (n1 n2 : String)
    (h : t1.played = 0 ∨ t2.played = 0) :
    generate_match_comment t1 t2 = "Yeterli veri yok."
    ∧ predict_summary t1 t2 n1 n2 = ⟨"-", "-", "-", "-", some "Veri yetersiz."⟩ := by
  constructor
  · unfold generate_match_comment
    rw [if_pos h]
  · unfold predict_summary
    rw [if_pos h]

/-- C8 witness: the short circuit on two all-zero stats records. -/
theorem insufficient_data_short_circuit_witness :
    ((⟨0, 0, 0, 0, 0, 0, 0, 0, 0⟩ : MatchStats).played = 0
      ∨ (⟨0, 0, 0, 0, 0, 0, 0, 0, 0⟩ : MatchStats).played = 0)
    ∧ generate_match_comment ⟨0, 0, 0, 0, 0, 0, 0, 0, 0⟩
        ⟨0, 0, 0, 0, 0, 0, 0, 0, 0⟩ = "Yeterli veri yok."
    ∧ predict_summary ⟨0, 0, 0, 0, 0, 0, 0, 0, 0⟩ ⟨0, 0, 0, 0, 0, 0, 0, 0, 0⟩
        "T1" "T2" = ⟨"-", "-", "-", "-", some "Veri yetersiz."⟩ :=
  ⟨Or.inl rfl,
   (insufficient_data_short_circuit ⟨0, 0, 0, 0, 0, 0, 0, 0, 0⟩
      ⟨0, 0, 0, 0, 0, 0, 0, 0, 0⟩ "T1" "T2" (Or.inl rfl)).1,
   (insufficient_data_short_circuit ⟨0, 0, 0, 0, 0, 0, 0, 0, 0⟩
      ⟨0, 0, 0, 0, 0, 0, 0, 0, 0⟩ "T1" "T2" (Or.inl rfl)).2⟩

/-- C9: the analysis request yields an absent result exactly when the input
dataset is empty, name resolution fails under both exact and normalized
matching, or the filtered per-team subset is empty; in every other case it
returns a `TeamAnalysis` fully populated from the non-empty filtered subset
(resolved name, the three stats folds, and the subset itself, with `played`
equal to the subset's size — never a zero-filled stand-in). -/
theorem analyze_absent_iff (df : List MatchRecord) (team : String) (n : Nat) :
    (analyze_team_from_df df team n false = none ↔
      df = [] ∨ _resolve_team_name df team = none
        ∨ ∃ r, _resolve_team_name df team = some r
            ∧ (team_mask_filter df r).take n = [])
    ∧ (∀ a, analyze_team_from_df df team n false = some a →
        ∃ r, _resolve_team_name df team = some r
          ∧ a.team_name = r
          ∧ a.matches_df = (team_mask_filter df r).take n
          ∧ a.matches_df ≠ []
          ∧ a.total = _calculate_stats a.matches_df r
          ∧ a.home = _calculate_stats
              (a.matches_df.filter (fun x => x.home_team == r)) r
          ∧ a.away = _calculate_stats
              (a.matches_df.filter (fun x => x.away_team == r)) r
          ∧ a.total.played = a.matches_df.length) := by
  by_cases hdf : df = []
  · subst hdf
    constructor
    · simp [analyze_team_from_df]
    · intro a ha
      simp [analyze_team_from_df] at ha
  · have hdf' : df.isEmpty = false := List.isEmpty_eq_false.mpr hdf
    cases hres : _resolve_team_name df team with
    | none =>
      have hnone : analyze_team_from_df df team n false = none := by
        simp [analyze_team_from_df, hdf', hres]
      constructor
      · rw [hnone]
        exact ⟨fun _ => Or.inr (Or.inl rfl), fun _ => rfl⟩
      · intro a ha
        rw [hnone] at ha
        exact Option.noConfusion ha
    | some r =>
      by_cases htd : (team_mask_filter df r).take n = []
      · have htd' : ((team_mask_filter df r).take n).isEmpty = true :=
          List.isEmpty_iff.mpr htd
        have hnone : analyze_team_from_df df team n false = none := by
          simp [analyze_team_from_df, hdf', hres, htd']
        constructor
        · rw [hnone]
          exact ⟨fun _ => Or.inr (Or.inr ⟨r, rfl, htd⟩), fun _ => rfl⟩
        · intro a ha
          rw [hnone] at ha
          exact Option.noConfusion ha
      · have htd' : ((team_mask_filter df r).take n).isEmpty = false :=
          List.isEmpty_eq_false.mpr htd
        have hsome : analyze_team_from_df df team n false
            = some ⟨r, _calculate_stats ((team_mask_filter df r).take n) r,
                _calculate_stats
                  (((team_mask_filter df r).take n).filter
                    (fun x => x.home_team == r)) r,
                _calculate_stats
                  (((team_mask_filter df r).take n).filter
                    (fun x => x.away_team == r)) r,
                (team_mask_filter df r).take n⟩ := by
          simp [analyze_team_from_df, hdf', hres, htd']
        constructor
        · rw [hsome]
          constructor
          · intro hcon
            exact Option.noConfusion hcon
          · intro hcon
            rcases hcon with h | h | ⟨r', hr', ht'⟩
            · exact absurd h hdf
            · exact Option.noConfusion h
            · obtain rfl := Option.some.inj hr'
              exact absurd ht' htd
        · intro a ha
          rw [hsome] at ha
          obtain rfl := Option.some.inj ha
          refine ⟨r, rfl, rfl, rfl, htd, rfl, rfl, rfl, ?_⟩
          rw [calc_stats_eq]

/-- C9 witness: the empty dataset yields the absent result. -/
theorem analyze_absent_iff_witness :
    analyze_team_from_df ([] : List MatchRecord) "A" 5 false = none :=
  (analyze_absent_iff [] "A" 5).1.mpr (Or.inl rfl)

/-- C10: the two market counters of `_calculate_stats` depend only on the raw
goal columns, never on which team name is the perspective argument. -/
theorem market_counts_team_independent (df : List MatchRecord)
    (t1 t2 : String) :
    (_calculate_stats df t1).over_25_count
        = (_calculate_stats df t2).over_25_count
    ∧ (_calculate_stats df t1).btts_count = (_calculate_stats df t2).btts_count := by
  rw [calc_stats_eq, calc_stats_eq]
  exact ⟨rfl, rfl⟩

end FootballAnalyzer
